import Mathlib

/-!
Verification development for the AlphaChip / quantum-holographic design
repository.  The TypeScript sources under `src/` are shallowly embedded:
every pure computation is translated to an executable Lean definition over
exact rationals (`ℚ`) — TypeScript floating-point literals such as `0.3`
are rendered as the exact rationals they denote — and the quantum
wavefunction arithmetic, which uses `Math.sqrt`, is embedded over the real
numbers.  Stateful class methods become functions from the class state to
the updated class state; methods that can throw return the final state
paired with an optional typed error.  Randomness (`Math.random`) and the
TensorFlow model internals are surfaced as explicit parameters.
-/

/-! ## Chip data model (src/lib/chip/types.ts, App.tsx) -/

/-- Component category tag, from the `type` union in the chip types file. -/
inductive CompType
  | processor
  | memory
  | quantum
  | optical
deriving DecidableEq, Repr

/-- A placed chip component (`ChipComponent` in the chip types file).
`position` is the (x, y, z) triple of a THREE.Vector3. -/
structure Component where
  id : String
  position : ℚ × ℚ × ℚ
  ctype : CompType
  connections : List String
  efficiency : ℚ
  temperature : ℚ
  load : ℚ
deriving DecidableEq, Repr

/-- A connection between two components (the `Connection` record used by
`AlphaChipOptimizer.stateToVector`; endpoints are component id strings). -/
structure Connection where
  id : String
  source : String
  target : String
  weight : ℚ
deriving DecidableEq, Repr

/-- The four performance percentages (`PerformanceMetrics`). -/
structure PerformanceMetrics where
  powerEfficiency : ℚ
  areaUtilization : ℚ
  thermalDissipation : ℚ
  signalIntegrity : ℚ
deriving DecidableEq, Repr

/-- The aggregate design state (`ChipState`).  The `connections` collection
is present in every value the code constructs (`App.tsx`) and is read by
`AlphaChipOptimizer.stateToVector`, so it is part of the embedding. -/
structure ChipState where
  components : List Component
  connections : List Connection
  performance : PerformanceMetrics
  quantumCoherence : ℚ
  processingPower : ℚ
  networkEfficiency : ℚ
  entanglementDegree : ℚ
  holographicFidelity : ℚ
deriving DecidableEq, Repr

/-- The closed action enumeration (`ChipAction`), in source order, so the
numeric enum value of a constructor is `ChipAction.toIdx`. -/
inductive ChipAction
  | AddProcessor
  | AddMemory
  | OptimizeConnections
  | RemoveComponent
deriving DecidableEq, Repr

/-- Numeric value of a `ChipAction` member (TypeScript enums number their
members from 0 in declaration order). -/
def ChipAction.toIdx : ChipAction → ℕ
  | .AddProcessor => 0
  | .AddMemory => 1
  | .OptimizeConnections => 2
  | .RemoveComponent => 3

/-- The initial `ChipState` built in `App.tsx` (default metrics
{power: 75, area: 80, thermal: 20, signal: 90}, no components). -/
def defaultChipState : ChipState :=
  { components := []
    connections := []
    performance :=
      { powerEfficiency := 75
        areaUtilization := 80
        thermalDissipation := 20
        signalIntegrity := 90 }
    quantumCoherence := 8/10
    processingPower := 1
    networkEfficiency := 85/100
    entanglementDegree := 75/100
    holographicFidelity := 9/10 }

/-! ## Reward functions (AlphaChipOptimizer.ts and ChipOptimizer.tsx) -/

/-- `AlphaChipOptimizer.calculateReward` (AlphaChipOptimizer.ts lines
138-157): the four metrics are divided by 100, the quantum bonus is the
mean of the three auxiliary scalars, and the weights are 0.3 / 0.2 / 0.2 /
0.2 / 0.1 in source order. -/
def alphaCalculateReward (state : ChipState) : ℚ :=
  let powerEfficiency := state.performance.powerEfficiency / 100
  let areaEfficiency := state.performance.areaUtilization / 100
  let thermalEfficiency := 1 - state.performance.thermalDissipation / 100
  let signalQuality := state.performance.signalIntegrity / 100
  let quantumBonus :=
    (state.quantumCoherence + state.entanglementDegree +
      state.holographicFidelity) / 3
  powerEfficiency * (3/10) + areaEfficiency * (2/10) +
    thermalEfficiency * (2/10) + signalQuality * (2/10) +
    quantumBonus * (1/10)

/-- The optimization loop's `calculateReward` (ChipOptimizer.tsx lines
34-51): it works on the raw, un-normalized metric percentages and adds
0.2 of each of quantumCoherence, networkEfficiency and entanglementDegree. -/
def loopCalculateReward (state : ChipState) : ℚ :=
  state.performance.powerEfficiency * (3/10) +
    state.performance.areaUtilization * (2/10) +
    (1 - state.performance.thermalDissipation) * (2/10) +
    state.performance.signalIntegrity * (3/10) +
    state.quantumCoherence * (2/10) +
    state.networkEfficiency * (2/10) +
    state.entanglementDegree * (2/10)

/-- Modelled from the spec: the reward composite exactly as the claim C1
words it — `0.3·(power/100) + 0.2·(area/100) + 0.2·(1 − thermal/100) +
0.3·(signal/100)` plus a bonus of weight 0.1 on the mean of
quantumCoherence, entanglementDegree and holographicFidelity.  Declared
only to be compared against the two source reward functions. -/
def c1SpecReward (state : ChipState) : ℚ :=
  (3/10) * (state.performance.powerEfficiency / 100) +
    (2/10) * (state.performance.areaUtilization / 100) +
    (2/10) * (1 - state.performance.thermalDissipation / 100) +
    (3/10) * (state.performance.signalIntegrity / 100) +
    (1/10) * ((state.quantumCoherence + state.entanglementDegree +
      state.holographicFidelity) / 3)

/-! ## The loop's transition function (ChipOptimizer.tsx lines 53-72) -/

/-- `applyAction` from ChipOptimizer.tsx: it shallow-copies the state and
switches on the action, but every case body is empty (each holds only a
comment describing the intended edit), so the function returns the input
state unchanged for every action. -/
def applyAction (state : ChipState) (action : ChipAction) : ChipState :=
  match action with
  | .AddProcessor => state
  | .AddMemory => state
  | .OptimizeConnections => state
  | .RemoveComponent => state

/-! ## Replay buffer (ChipDesignAgent.ts lines 7-45) -/

/-- One stored transition (the record type of `ReplayBuffer.buffer`). -/
structure Transition where
  state : ChipState
  action : ChipAction
  reward : ℚ
  nextState : ChipState
deriving DecidableEq, Repr

/-- A throwaway transition used as the out-of-range default when indexing a
sampled batch (the source indexes `buffer[index]` with an always-in-range
random index). -/
def dTrans : Transition :=
  { state := defaultChipState
    action := ChipAction.AddProcessor
    reward := 0
    nextState := defaultChipState }

/-- `ReplayBuffer.add`: when the buffer has reached `cap` entries the
oldest entry (index 0) is shifted off before the new transition is pushed
at the back. -/
def replayAdd (cap : ℕ) (buffer : List Transition) (t : Transition) :
    List Transition :=
  let buffer' := if cap ≤ buffer.length then buffer.tail else buffer
  buffer' ++ [t]

/-! ## State encodings (ChipDesignAgent.stateToVector,
AlphaChipOptimizer.stateToVector / padStateVector) -/

/-- `ChipDesignAgent.stateToVector` (width 10): scale-normalized component
count, the four metrics each divided by 100 (via `normalizeMetrics`), and
the five auxiliary scalars. -/
def stateToVector10 (state : ChipState) : List ℚ :=
  [(state.components.length : ℚ) / 1000,
    state.performance.powerEfficiency / 100,
    state.performance.areaUtilization / 100,
    state.performance.thermalDissipation / 100,
    state.performance.signalIntegrity / 100,
    state.quantumCoherence,
    state.processingPower,
    state.networkEfficiency,
    state.entanglementDegree,
    state.holographicFidelity]

/-- `AlphaChipOptimizer.stateToVector`: the raw component and connection
counts, the four metrics un-normalized, the five auxiliary scalars, then
per-component (x, y, z, efficiency, temperature) for the first 5 components
and the first 5 connection weights. -/
def alphaStateToVector (state : ChipState) : List ℚ :=
  [(state.components.length : ℚ),
    (state.connections.length : ℚ),
    state.performance.powerEfficiency,
    state.performance.areaUtilization,
    state.performance.thermalDissipation,
    state.performance.signalIntegrity,
    state.quantumCoherence,
    state.processingPower,
    state.networkEfficiency,
    state.entanglementDegree,
    state.holographicFidelity] ++
  (state.components.take 5).flatMap (fun c =>
    [c.position.1, c.position.2.1, c.position.2.2, c.efficiency,
      c.temperature]) ++
  (state.connections.take 5).map (fun c => c.weight)

/-- `AlphaChipOptimizer.padStateVector`: push zeros while the vector is
shorter than 30, then slice to the first 30 entries. -/
def padStateVector (vector : List ℚ) : List ℚ :=
  (vector ++ List.replicate (30 - vector.length) 0).take 30

/-- The complete 30-wide encoding the optimizer feeds its model
(`padStateVector(stateToVector(state))`, AlphaChipOptimizer.ts lines
44-48). -/
def alphaEncode (state : ChipState) : List ℚ :=
  padStateVector (alphaStateToVector state)

/-- The feature tail of `AlphaChipOptimizer.stateToVector`: the entries
after the eleven leading scalars — per-component (x, y, z, efficiency,
temperature) for the first 5 components followed by the first 5 connection
weights. -/
def alphaFeatureTail (state : ChipState) : List ℚ :=
  (state.components.take 5).flatMap (fun c =>
    [c.position.1, c.position.2.1, c.position.2.2, c.efficiency,
      c.temperature]) ++
  (state.connections.take 5).map (fun c => c.weight)

/-- A state with five components, whose 30-wide encoding exercises the
truncation branch (its natural feature list has 11 + 25 = 36 entries). -/
def c6WideState : ChipState :=
  { defaultChipState with
      components := List.replicate 5
        { id := "p"
          position := (1, 2, 3)
          ctype := CompType.processor
          connections := []
          efficiency := 80
          temperature := 25
          load := 1/2 } }

/-! ## Value-agent training (ChipDesignAgent.train, lines 90-127) -/

/-- `Math.max(...row)` over a list of rationals.  The source applies it
only to non-empty prediction rows (the model output has width 4); the
empty case, which JavaScript would send to `-Infinity`, is given a dummy
value here and is unreachable in the theorems. -/
def maxListQ : List ℚ → ℚ
  | [] => 0
  | x :: xs => xs.foldl max x

/-- The batch drawn by `ReplayBuffer.sample(batchSize)`: 32 uniformly
random in-range indices into the buffer.  The randomness is surfaced as
the explicit index list `idxs`. -/
def sampleBatch (buffer : List Transition) (idxs : List ℕ) :
    List Transition :=
  (idxs.take 32).map (fun i => buffer.getD i dTrans)

/-- The TD regression targets built in `ChipDesignAgent.train` (lines
112-121): each sample's current Q-row with the taken action's slot
overwritten by `reward + 0.99 · max(next-state Q-row)`.  `predict` is the
model's forward pass, surfaced as a parameter. -/
def trainTargets {M : Type} (predict : M → List ℚ → List ℚ) (model : M)
    (batch : List Transition) : List (List ℚ) :=
  let currentQs := batch.map (fun b => predict model (stateToVector10 b.state))
  let futureQs := batch.map (fun b => predict model (stateToVector10 b.nextState))
  (currentQs.zip (batch.zip futureQs)).map (fun c =>
    c.1.set c.2.1.action.toIdx (c.2.1.reward + (99/100) * maxListQ c.2.2))

/-- `ChipDesignAgent.train`: record the transition; if the buffer still
holds fewer than 32 entries return loss 0 without touching the model;
otherwise sample a batch, build the TD targets and run one optimization
step.  The model (type `M`), its forward pass `predict` and the
`trainOnBatch` gradient step `step` (returning the updated model and the
scalar loss) are surfaced as parameters; the result is (model after the
call, buffer after the call, returned loss). -/
def train {M : Type} (predict : M → List ℚ → List ℚ)
    (step : M → List (List ℚ) → List (List ℚ) → M × ℚ) (idxs : List ℕ)
    (model : M) (memory : List Transition) (state : ChipState)
    (action : ChipAction) (reward : ℚ) (nextState : ChipState) :
    M × List Transition × ℚ :=
  let memory' := replayAdd 10000 memory
    { state := state, action := action, reward := reward,
      nextState := nextState }
  if memory'.length < 32 then (model, memory', 0)
  else
    let batch := sampleBatch memory' idxs
    let states := batch.map (fun b => stateToVector10 b.state)
    let targets := trainTargets predict model batch
    let res := step model states targets
    (res.1, memory', res.2)

/-- The conclusion of claim C5, as a predicate over the surfaced
parameters: `train` runs one `step` against the TD targets and returns its
loss together with the grown buffer, and every target row is the current
predicted Q-row with exactly the taken action's slot replaced by
`reward + 0.99 · max(next-state Q-row)`. -/
def trainTDProp {M : Type} (predict : M → List ℚ → List ℚ)
    (step : M → List (List ℚ) → List (List ℚ) → M × ℚ) (idxs : List ℕ)
    (model : M) (memory : List Transition) (state : ChipState)
    (action : ChipAction) (reward : ℚ) (nextState : ChipState) : Prop :=
  let memory' := replayAdd 10000 memory
    { state := state, action := action, reward := reward,
      nextState := nextState }
  let batch := sampleBatch memory' idxs
  let targets := trainTargets predict model batch
  train predict step idxs model memory state action reward nextState =
    ((step model (batch.map (fun b => stateToVector10 b.state)) targets).1,
      memory',
      (step model (batch.map (fun b => stateToVector10 b.state)) targets).2) ∧
  ∀ (i : ℕ) (b : Transition), batch[i]? = some b →
    ∃ q, targets[i]? = some q ∧
      q[b.action.toIdx]? =
        some (b.reward + (99/100) *
          maxListQ (predict model (stateToVector10 b.nextState))) ∧
      ∀ j, j ≠ b.action.toIdx →
        q[j]? = (predict model (stateToVector10 b.state))[j]?

/-! ## Policy-agent action selection (AlphaChipOptimizer.getNextAction,
lines 43-64) -/

/-- The two internal computation-fault kinds relevant to `getNextAction`:
a fault while building the input tensor from the state (lines 44-48,
before the `try` block) and a fault in the model forward pass (inside the
`try` block). -/
inductive CompFault
  | encoding
  | inference
deriving DecidableEq, Repr

/-- Scanning helper for `argMax`: `idx` is the index of the next element,
`bi`/`bv` the index and value of the best element so far.  A strict
comparison keeps the first occurrence of the maximum, as
`tf.argMax` does. -/
def argmaxGo : ℕ → ℕ → ℚ → List ℚ → ℕ
  | _, bi, _, [] => bi
  | idx, bi, bv, x :: xs =>
    if bv < x then argmaxGo (idx + 1) idx x xs
    else argmaxGo (idx + 1) bi bv xs

/-- Index of the first maximum of a prediction row
(`prediction.argMax(-1)`); the empty row is unreachable. -/
def argmaxIdx : List ℚ → ℕ
  | [] => 0
  | x :: xs => argmaxGo 1 0 x xs

/-- `AlphaChipOptimizer.getNextAction`.  The input tensor is built from
the internal state before the `try` block, so a fault there propagates as
an error; only a fault in the forward pass is caught and replaced by the
fallback action `OptimizeConnections`.  Both fallible computations are
surfaced as `Except`-valued parameters; the returned action index is the
raw arg-max index (the source casts it to `ChipAction` unchecked). -/
def getNextActionE (stateTensor : Except CompFault (List ℚ))
    (predict : List ℚ → Except CompFault (List ℚ)) : Except CompFault ℕ :=
  match stateTensor with
  | .error e => .error e
  | .ok v =>
    match predict v with
    | .ok prediction => .ok (argmaxIdx prediction)
    | .error _ => .ok ChipAction.OptimizeConnections.toIdx

/-! ## Quantum processor (src/lib/quantum/QuantumMath.ts,
src/lib/quantum/QuantumProcessor.ts)

The wavefunction arithmetic goes through `Math.sqrt`, so it is embedded
over the real numbers; every quantity that never meets a square root stays
rational. -/

/-- A complex number (the `Complex` class of QuantumMath.ts). -/
structure QC where
  re : ℝ
  im : ℝ

/-- `Complex.mul`. -/
def cmul (a b : QC) : QC :=
  { re := a.re * b.re - a.im * b.im
    im := a.re * b.im + a.im * b.re }

/-- `Complex.conjugate`. -/
def conjC (a : QC) : QC :=
  { re := a.re, im := -a.im }

/-- `Complex.scale`. -/
def scaleC (a : QC) (factor : ℝ) : QC :=
  { re := a.re * factor, im := a.im * factor }

/-- `Complex.magnitude` = `Math.sqrt(real·real + imag·imag)`. -/
noncomputable def magnitude (a : QC) : ℝ :=
  Real.sqrt (a.re * a.re + a.im * a.im)

/-- Sum of squared magnitudes of a wavefunction: the `normalization`
accumulator of `normalizeWavefunction` before its square root, and the
value `calculateProbability` reduces to. -/
noncomputable def sumMagSq (w : List QC) : ℝ :=
  (w.map fun c => magnitude c ^ 2).sum

/-- `QuantumProcessor.normalizeWavefunction`: scale every entry by
`1 / sqrt(Σ |wᵢ|²)`.  (On a zero-norm input JavaScript produces Infinity
entries where Lean's `1 / 0 = 0` convention gives zeros; the claims stay
away from that case.) -/
noncomputable def normalizeWavefunction (w : List QC) : List QC :=
  let normalization := Real.sqrt (sumMagSq w)
  w.map fun c => scaleC c (1 / normalization)

/-- The `QuantumProcessor` class state: its `quantumState` record
flattened together with the `processingSpeed` field (kept rational — it
never passes through `sqrt`). -/
structure QuantumProcessor where
  wavefunction : List QC
  probability : ℝ
  phase : ℝ
  spin : ℝ
  entanglementDegree : ℝ
  processingSpeed : ℚ

/-- `QuantumProcessor.calculateProbability`: Σ |wᵢ|² over the stored
wavefunction. -/
noncomputable def calculateProbability (q : QuantumProcessor) : ℝ :=
  sumMagSq q.wavefunction

/-- The double loop of `updateCoherenceMatrices`: Σ over all pairs
`i < j` of `|wᵢ · conj(wⱼ)|`. -/
noncomputable def coherencePairs : List QC → ℝ
  | [] => 0
  | x :: xs =>
    (xs.map fun y => magnitude (cmul x (conjC y))).sum + coherencePairs xs

/-- `QuantumProcessor.updateCoherenceMatrices`: entanglementDegree becomes
the pair sum divided by `n·(n−1)/2`.  (For `n ≤ 1` JavaScript divides 0 by
0 giving NaN where Lean's convention gives 0; no claim depends on the
entanglement value.) -/
noncomputable def updateCoherenceMatrices (q : QuantumProcessor) :
    QuantumProcessor :=
  { q with entanglementDegree :=
      coherencePairs q.wavefunction /
        ((q.wavefunction.length : ℝ) * ((q.wavefunction.length : ℝ) - 1) / 2) }

/-- `QuantumProcessor.setWavefunction`: store the normalized wavefunction,
recompute the probability from the stored value, then update the coherence
matrices. -/
noncomputable def setWavefunction (q : QuantumProcessor) (w : List QC) :
    QuantumProcessor :=
  let q1 := { q with wavefunction := normalizeWavefunction w }
  let q2 := { q1 with probability := calculateProbability q1 }
  updateCoherenceMatrices q2

/-- `QuantumProcessor.calculateCoherenceLength`: mean magnitude of the
wavefunction entries. -/
noncomputable def calculateCoherenceLength (q : QuantumProcessor) : ℝ :=
  (q.wavefunction.map magnitude).sum / (q.wavefunction.length : ℝ)

/-- `QuantumProcessor.updateProcessingSpeed`: only positive speeds are
accepted. -/
def updateProcessingSpeed (q : QuantumProcessor) (speed : ℚ) :
    QuantumProcessor :=
  if 0 < speed then { q with processingSpeed := speed } else q

/-- A freshly constructed `QuantumProcessor`: wavefunction `[1 + 0i]`,
probability 1, processingSpeed 1.0, everything else 0. -/
def freshQuantum : QuantumProcessor :=
  { wavefunction := [{ re := 1, im := 0 }]
    probability := 1
    phase := 0
    spin := 0
    entanglementDegree := 0
    processingSpeed := 1 }

/-! ## Photonic processor (src/lib/optical/PhotonicProcessor.ts) -/

/-- The `PhotonicProcessor` class state.  The `currentState` and `weights`
fields feed only `propagatePhotons`/`optimizeChipDesign`, which no claim
touches; `weights` (filled from `Math.random()` at construction) is kept
as data so the fresh constructor stays parametric in it, and the local
chip-design bookkeeping is omitted from the embedding. -/
structure PhotonicProcessor where
  interferencePattern : List ℚ
  hologramPlate : List ℚ
  weights : List ℚ
deriving DecidableEq, Repr

/-- `new PhotonicProcessor()`: two zero-filled `Float32Array(1024)`s and
randomly initialized weights, surfaced as the parameter `w`. -/
def freshPhotonic (w : List ℚ) : PhotonicProcessor :=
  { interferencePattern := List.replicate 1024 0
    hologramPlate := List.replicate 1024 0
    weights := w }

/-- `calculateHologramFidelity`: mean absolute value of the hologram
plate. -/
def calculateHologramFidelity (p : PhotonicProcessor) : ℚ :=
  (p.hologramPlate.map fun v => |v|).sum / (p.hologramPlate.length : ℚ)

/-- `setInterferencePattern` (the copy into a fresh `Float32Array` is the
identity under value semantics). -/
def setInterferencePattern (p : PhotonicProcessor) (pattern : List ℚ) :
    PhotonicProcessor :=
  { p with interferencePattern := pattern }

/-- `setHologramPlate`. -/
def setHologramPlate (p : PhotonicProcessor) (plate : List ℚ) :
    PhotonicProcessor :=
  { p with hologramPlate := plate }

/-- `updateHologramFidelity`: scales the hologram plate by the fidelity
when it lies in [0, 1], otherwise does nothing. -/
def updateHologramFidelity (p : PhotonicProcessor) (fidelity : ℚ) :
    PhotonicProcessor :=
  if 0 ≤ fidelity ∧ fidelity ≤ 1 then
    { p with hologramPlate := p.hologramPlate.map fun v => v * fidelity }
  else p

/-! ## Holographic processor (src/lib/holographic/HolographicProcessor.ts) -/

/-- The `HolographicProcessor` aggregate.  Its text-processing machinery
(`processingQueue`, `isProcessing`, `lastError`, `responseCache`, and the
`QuantumEnhancer`) takes no part in `saveState`/`loadState` beyond
`lastError` being set when an error is thrown; thrown errors are returned
explicitly by the embedding instead. -/
structure HolographicProcessor where
  quantum : QuantumProcessor
  photonic : PhotonicProcessor

/-- A freshly constructed `HolographicProcessor` (its photonic weights
surfaced as the parameter `w`). -/
def freshHolographic (w : List ℚ) : HolographicProcessor :=
  { quantum := freshQuantum, photonic := freshPhotonic w }

/-- The `quantumState` section of a `ProcessorState` snapshot. -/
structure PQuantumState where
  wavefunction : List QC
  coherence : ℝ
  entanglement : ℝ

/-- The `photonic` section of a `ProcessorState` snapshot. -/
structure PPhotonic where
  interference : List ℚ
  hologram : List ℚ
deriving DecidableEq, Repr

/-- The `metrics` section of a `ProcessorState` snapshot.  `Option` models
a JavaScript field that may be missing from a malformed input object;
`saveState` always produces present values. -/
structure PMetrics where
  efficiency : Option ℚ
  processingPower : Option ℚ
deriving DecidableEq, Repr

/-- A `ProcessorState` snapshot; each top-level section may be missing in
a malformed input. -/
structure ProcessorState where
  quantumState : Option PQuantumState
  photonic : Option PPhotonic
  metrics : Option PMetrics

/-- The typed load errors thrown inside `loadState`: the guard on the
three top-level sections throws 'Invalid state object', and
`updateProcessingMetrics` throws 'Invalid metrics object'. -/
inductive LoadErr
  | invalidState
  | invalidMetrics
deriving DecidableEq, Repr

/-- `HolographicProcessor.saveState`: package the current wavefunction,
the quantum metrics (coherence length, entanglement degree, processing
speed), both photonic arrays, and the hologram fidelity. -/
noncomputable def saveState (h : HolographicProcessor) : ProcessorState :=
  { quantumState := some
      { wavefunction := h.quantum.wavefunction
        coherence := calculateCoherenceLength h.quantum
        entanglement := h.quantum.entanglementDegree }
    photonic := some
      { interference := h.photonic.interferencePattern
        hologram := h.photonic.hologramPlate }
    metrics := some
      { efficiency := some (calculateHologramFidelity h.photonic)
        processingPower := some h.quantum.processingSpeed } }

/-- `HolographicProcessor.loadState`.  The guard rejects an input missing
any of the three top-level sections before anything is applied.  Otherwise
the wavefunction, interference pattern and hologram plate are applied in
that order, and only then does `updateProcessingMetrics` run its guard
`!metrics?.processingPower || !metrics?.efficiency`, which rejects a
missing *or zero* value (JavaScript falsiness; NaN is not modelled).  The
result pairs the processor state reached when the call returns or throws
with the optional typed error — the TypeScript code mutates `this` in
place, so changes made before a throw persist. -/
noncomputable def loadState (h : HolographicProcessor)
    (st : ProcessorState) : HolographicProcessor × Option LoadErr :=
  match st.quantumState, st.photonic, st.metrics with
  | some qs, some ph, some m =>
    let h1 := { h with quantum := setWavefunction h.quantum qs.wavefunction }
    let h2 :=
      { h1 with photonic := setInterferencePattern h1.photonic ph.interference }
    let h3 := { h2 with photonic := setHologramPlate h2.photonic ph.hologram }
    match m.processingPower, m.efficiency with
    | some pp, some eff =>
      if pp = 0 ∨ eff = 0 then (h3, some LoadErr.invalidMetrics)
      else
        let h4 := { h3 with quantum := updateProcessingSpeed h3.quantum pp }
        ({ h4 with photonic := updateHologramFidelity h4.photonic eff }, none)
    | _, _ => (h3, some LoadErr.invalidMetrics)
  | _, _, _ => (h, some LoadErr.invalidState)

/-- The quantum section of the concrete malformed input used against
claim C9. -/
def c9BadQuantum : PQuantumState :=
  { wavefunction := [{ re := 1, im := 0 }]
    coherence := 0
    entanglement := 0 }

/-- The photonic section of the claim C9 input: both arrays differ from a
fresh processor's. -/
def c9BadPhotonic : PPhotonic :=
  { interference := [5], hologram := [7] }

/-- The metrics section of the claim C9 input: `efficiency` is missing. -/
def c9BadMetrics : PMetrics :=
  { efficiency := none, processingPower := some 1 }

/-- The concrete malformed input used against claim C9: all three
top-level sections are present but `metrics.efficiency` is missing. -/
def c9BadInput : ProcessorState :=
  { quantumState := some c9BadQuantum
    photonic := some c9BadPhotonic
    metrics := some c9BadMetrics }

/-- An input missing every top-level section. -/
def c9EmptyInput : ProcessorState :=
  { quantumState := none, photonic := none, metrics := none }

/-- A metrics section whose `processingPower` is missing instead. -/
def c9BadMetrics2 : PMetrics :=
  { efficiency := some 1, processingPower := none }

/-- The claim C9 input variant with a missing `metrics.processingPower`. -/
def c9BadInput2 : ProcessorState :=
  { quantumState := some c9BadQuantum
    photonic := some c9BadPhotonic
    metrics := some c9BadMetrics2 }

/-! ## Claim theorems (C1, C2) -/

/-- Claim C1 counterexample: at the default chip state, the reward formula
stated in the claim differs from `AlphaChipOptimizer.calculateReward`
(whose signal weight is 0.2, not 0.3), and the two source reward functions
disagree with each other (the loop's version never divides by 100). -/
theorem c1_counterexample :
    c1SpecReward defaultChipState ≠ alphaCalculateReward defaultChipState ∧
    alphaCalculateReward defaultChipState ≠ loopCalculateReward defaultChipState := by
  norm_num [c1SpecReward, alphaCalculateReward, loopCalculateReward, defaultChipState]

/-- Claim C1 (amended): `AlphaChipOptimizer.calculateReward` is the
composite `0.3·(power/100) + 0.2·(area/100) + 0.2·(1 − thermal/100) +
0.2·(signal/100) + 0.1·mean(quantumCoherence, entanglementDegree,
holographicFidelity)` — the signal weight is 0.2, not 0.3 — while the
optimization loop's `calculateReward` uses the raw un-normalized metrics
with signal weight 0.3 plus `0.2·(quantumCoherence + networkEfficiency +
entanglementDegree)`; the two functions do not agree on every state. -/
theorem c1_reward_formulas :
    (∀ s : ChipState,
      alphaCalculateReward s =
        (3/10) * (s.performance.powerEfficiency / 100) +
          (2/10) * (s.performance.areaUtilization / 100) +
          (2/10) * (1 - s.performance.thermalDissipation / 100) +
          (2/10) * (s.performance.signalIntegrity / 100) +
          (1/10) * ((s.quantumCoherence + s.entanglementDegree +
            s.holographicFidelity) / 3) ∧
      loopCalculateReward s =
        (3/10) * s.performance.powerEfficiency +
          (2/10) * s.performance.areaUtilization +
          (2/10) * (1 - s.performance.thermalDissipation) +
          (3/10) * s.performance.signalIntegrity +
          (2/10) * (s.quantumCoherence + s.networkEfficiency +
            s.entanglementDegree)) ∧
    ¬ ∀ s : ChipState, alphaCalculateReward s = loopCalculateReward s := by
  constructor
  · intro s
    constructor
    · unfold alphaCalculateReward
      ring
    · unfold loopCalculateReward
      ring
  · intro h
    have h0 := h defaultChipState
    revert h0
    norm_num [alphaCalculateReward, loopCalculateReward, defaultChipState]

/-- Claim C2: evaluating the loop's transition function at the failing
input — the default initial state with `AddProcessor` applied five times —
leaves the component list empty (the switch cases are unimplemented stubs),
and in fact returns the input state unchanged. -/
theorem c2_applyAction_stub :
    (((List.replicate 5 ChipAction.AddProcessor).foldl applyAction
        defaultChipState).components).length = 0 ∧
    (List.replicate 5 ChipAction.AddProcessor).foldl applyAction
        defaultChipState = defaultChipState := by
  exact ⟨rfl, rfl⟩

/-! ## Replay buffer lemmas and claims C4, C5, C8 -/

/-- Folding `ReplayBuffer.add` over a whole insertion sequence from the
empty buffer keeps exactly the most recent `cap` insertions, in order
(natural subtraction makes the right-hand side the whole sequence while it
is shorter than `cap`). -/
theorem replayAdd_foldl_eq_drop (cap : ℕ) (hcap : 1 ≤ cap)
    (ts : List Transition) :
    ts.foldl (replayAdd cap) [] = ts.drop (ts.length - cap) := by
  induction ts using List.reverseRecOn with
  | nil => simp
  | append_singleton ts t ih =>
    rw [List.foldl_append, List.foldl_cons, List.foldl_nil, ih]
    unfold replayAdd
    by_cases h : cap ≤ ts.length
    · have hlen : (ts.drop (ts.length - cap)).length = cap := by
        rw [List.length_drop]; omega
      rw [if_pos (le_of_eq hlen.symm), List.tail_drop]
      have harith : (ts ++ [t]).length - cap = ts.length - cap + 1 := by
        simp only [List.length_append, List.length_singleton]; omega
      rw [harith, List.drop_append_of_le_length (by omega)]
    · have hlen : ¬ cap ≤ (ts.drop (ts.length - cap)).length := by
        rw [List.length_drop]; omega
      rw [if_neg hlen]
      have h0 : ts.length - cap = 0 := by omega
      have h1 : ts.length + [t].length - cap = 0 := by
        simp only [List.length_singleton]; omega
      rw [h0, List.length_append, h1, List.drop_zero, List.drop_zero]

/-- Claim C4: the replay buffer (capacity 10,000), fed any sequence of
`add` calls from empty, never exceeds its capacity, and its contents are
always exactly the last `min(length, 10000)` inserted transitions in
insertion order — in particular, after `10000 + k` insertions they are the
last 10,000 (the `drop` of the first `k`). -/
theorem c4_replay_capacity_fifo (ts : List Transition) :
    (ts.foldl (replayAdd 10000) []).length ≤ 10000 ∧
    ts.foldl (replayAdd 10000) [] = ts.drop (ts.length - 10000) := by
  have h := replayAdd_foldl_eq_drop 10000 (by norm_num) ts
  refine ⟨?_, h⟩
  rw [h, List.length_drop]
  omega

/-- Every `ChipAction` enum value is a valid index into a width-4 Q-row. -/
theorem chipAction_toIdx_lt_four (a : ChipAction) : a.toIdx < 4 := by
  cases a <;> decide

/-- Unfolding `trainTargets` over the head of the batch. -/
theorem trainTargets_cons {M : Type} (predict : M → List ℚ → List ℚ)
    (model : M) (b : Transition) (bs : List Transition) :
    trainTargets predict model (b :: bs) =
      (predict model (stateToVector10 b.state)).set b.action.toIdx
        (b.reward + (99/100) *
          maxListQ (predict model (stateToVector10 b.nextState))) ::
      trainTargets predict model bs := rfl

/-- The `i`-th TD target row is the `i`-th sample's current Q-row with the
taken action's slot overwritten. -/
theorem trainTargets_getElem? {M : Type} (predict : M → List ℚ → List ℚ)
    (model : M) :
    ∀ (batch : List Transition) (i : ℕ) (b : Transition),
      batch[i]? = some b →
      (trainTargets predict model batch)[i]? =
        some ((predict model (stateToVector10 b.state)).set b.action.toIdx
          (b.reward + (99/100) *
            maxListQ (predict model (stateToVector10 b.nextState)))) := by
  intro batch
  induction batch with
  | nil => intro i b h; simp at h
  | cons hd tl ih =>
    intro i b h
    cases i with
    | zero =>
      rw [List.getElem?_cons_zero] at h
      cases h
      rw [trainTargets_cons, List.getElem?_cons_zero]
    | succ n =>
      rw [List.getElem?_cons_succ] at h
      rw [trainTargets_cons, List.getElem?_cons_succ]
      exact ih n b h

/-- Claim C5: once the buffer holds at least 32 transitions after the
incoming one is recorded, `ChipDesignAgent.train` regresses on targets
that equal the current predicted Q-rows with exactly the taken action's
slot replaced by `reward + 0.99 · max(next-state Q-row)`, runs one
optimization step against them, and returns that step's scalar loss. -/
theorem c5_train_td_target {M : Type} (predict : M → List ℚ → List ℚ)
    (step : M → List (List ℚ) → List (List ℚ) → M × ℚ) (idxs : List ℕ)
    (model : M) (memory : List Transition) (state : ChipState)
    (action : ChipAction) (reward : ℚ) (nextState : ChipState)
    (hlen : ¬ (replayAdd 10000 memory
      { state := state, action := action, reward := reward,
        nextState := nextState }).length < 32)
    (hpred : ∀ v, (predict model v).length = 4) :
    trainTDProp predict step idxs model memory state action reward
      nextState := by
  unfold trainTDProp
  refine ⟨?_, ?_⟩
  · simp only [train, if_neg hlen]
  · intro i b hib
    refine ⟨_, trainTargets_getElem? predict model _ i b hib, ?_, ?_⟩
    · rw [List.getElem?_set_self']
      have hi : b.action.toIdx < (predict model
          (stateToVector10 b.state)).length := by
        rw [hpred]; exact chipAction_toIdx_lt_four _
      rw [List.getElem?_eq_getElem hi]
      rfl
    · intro j hj
      exact List.getElem?_set_ne (fun h => hj h.symm)

/-- Claim C5 witness: a unit model whose forward pass always predicts
`[1, 2, 3, 4]`, a buffer of 31 stored transitions (so the 32nd recorded
transition triggers training), and a constant optimization step. -/
theorem c5_train_td_target_witness :
    (¬ (replayAdd 10000 (List.replicate 31 dTrans)
      { state := defaultChipState, action := ChipAction.AddProcessor,
        reward := 0, nextState := defaultChipState }).length < 32) ∧
    (∀ v : List ℚ,
      ((fun (_ : Unit) (_ : List ℚ) => [(1 : ℚ), 2, 3, 4]) () v).length = 4) ∧
    trainTDProp (fun (_ : Unit) (_ : List ℚ) => [(1 : ℚ), 2, 3, 4])
      (fun _ _ _ => ((), 7)) (List.replicate 32 0) ()
      (List.replicate 31 dTrans) defaultChipState ChipAction.AddProcessor 0
      defaultChipState :=
  ⟨by decide, fun _ => rfl,
    c5_train_td_target _ _ _ _ _ _ _ _ _ (by decide) (fun _ => rfl)⟩

/-- Claim C8: whenever the buffer occupancy after recording the incoming
transition is below the batch size 32, `train` returns loss 0, leaves the
model untouched, and still records the transition; in particular with 10
stored transitions the call returns 0 and occupancy becomes 11. -/
theorem c8_train_skip {M : Type} (predict : M → List ℚ → List ℚ)
    (step : M → List (List ℚ) → List (List ℚ) → M × ℚ) (idxs : List ℕ)
    (model : M) (memory : List Transition) (state : ChipState)
    (action : ChipAction) (reward : ℚ) (nextState : ChipState) :
    ((replayAdd 10000 memory
        { state := state, action := action, reward := reward,
          nextState := nextState }).length < 32 →
      train predict step idxs model memory state action reward nextState =
        (model, replayAdd 10000 memory
          { state := state, action := action, reward := reward,
            nextState := nextState }, 0)) ∧
    (memory.length = 10 →
      train predict step idxs model memory state action reward nextState =
        (model, replayAdd 10000 memory
          { state := state, action := action, reward := reward,
            nextState := nextState }, 0) ∧
      (replayAdd 10000 memory
        { state := state, action := action, reward := reward,
          nextState := nextState }).length = 11) := by
  have hgrow : ∀ t : Transition, memory.length < 10000 →
      (replayAdd 10000 memory t).length = memory.length + 1 := by
    intro t h
    unfold replayAdd
    rw [if_neg (by omega)]
    simp
  constructor
  · intro h
    simp only [train, if_pos h]
  · intro h10
    have hlen : (replayAdd 10000 memory
        { state := state, action := action, reward := reward,
          nextState := nextState }).length = 11 := by
      rw [hgrow _ (by omega)]; omega
    have hlt : (replayAdd 10000 memory
        { state := state, action := action, reward := reward,
          nextState := nextState }).length < 32 := by omega
    exact ⟨by simp only [train, if_pos hlt], hlen⟩

/-- Claim C8 witness: with exactly 10 stored transitions, `train` returns
the untouched model, the 11-entry buffer, and loss 0. -/
theorem c8_train_skip_witness :
    (List.replicate 10 dTrans).length = 10 ∧
    (train (fun (_ : Unit) (_ : List ℚ) => [(1 : ℚ), 2, 3, 4])
        (fun _ _ _ => ((), 7)) [] () (List.replicate 10 dTrans)
        defaultChipState ChipAction.AddMemory 0 defaultChipState =
      ((), replayAdd 10000 (List.replicate 10 dTrans)
        { state := defaultChipState, action := ChipAction.AddMemory,
          reward := 0, nextState := defaultChipState }, 0) ∧
    (replayAdd 10000 (List.replicate 10 dTrans)
      { state := defaultChipState, action := ChipAction.AddMemory,
        reward := 0, nextState := defaultChipState }).length = 11) :=
  ⟨rfl, (c8_train_skip _ _ _ _ _ _ _ _ _).2 rfl⟩

/-! ## Encoding claims C6, C7 -/

/-- `padStateVector` always yields exactly 30 entries: padding raises a
short vector to 30 and the slice truncates a long one at 30. -/
theorem padStateVector_length (v : List ℚ) : (padStateVector v).length = 30 := by
  unfold padStateVector
  rw [List.length_take, List.length_append, List.length_replicate]
  omega

/-- Claim C6 counterexample: on the default state the 30-wide encoding has
`connections.length` (= 0) at index 1 and the raw power efficiency 75 at
index 2, whereas the claimed layout would put `power/100 = 0.75` at index 1
and `area/100 = 0.8` at index 2. -/
theorem c6_counterexample :
    (alphaEncode defaultChipState)[1]? = some 0 ∧
    (alphaEncode defaultChipState)[2]? = some 75 ∧
    (0 : ℚ) ≠ 75 / 100 ∧ (75 : ℚ) ≠ 80 / 100 := by
  refine ⟨?_, ?_, by norm_num, by norm_num⟩ <;>
    simp [alphaEncode, alphaStateToVector, padStateVector, defaultChipState]

/-- Splitting `padStateVector` around an 11-entry prefix: the first 11
output entries are that prefix, and the remaining 19 are the rest of the
feature list zero-padded (or truncated) to 19. -/
theorem padStateVector_split (v w : List ℚ) (hv : v.length = 11) :
    (padStateVector (v ++ w)).take 11 = v ∧
    (padStateVector (v ++ w)).drop 11 =
      (w ++ List.replicate (19 - w.length) 0).take 19 := by
  constructor
  · unfold padStateVector
    rw [List.take_take]
    have hmin : (11 : ℕ) ⊓ 30 = 11 := by norm_num
    rw [hmin, List.append_assoc]
    exact List.take_left' hv
  · unfold padStateVector
    rw [List.drop_take]
    have h19 : (30 : ℕ) - 11 = 19 := rfl
    rw [h19, List.append_assoc, List.drop_left' hv]
    have hpad : 30 - (v ++ w).length = 19 - w.length := by
      rw [List.length_append, hv]; omega
    rw [hpad]

/-- The raw 30-wide feature list splits as eleven leading scalars followed
by the feature tail. -/
theorem alphaStateToVector_split (s : ChipState) :
    alphaStateToVector s =
      [(s.components.length : ℚ), (s.connections.length : ℚ),
        s.performance.powerEfficiency, s.performance.areaUtilization,
        s.performance.thermalDissipation, s.performance.signalIntegrity,
        s.quantumCoherence, s.processingPower, s.networkEfficiency,
        s.entanglementDegree, s.holographicFidelity] ++
      alphaFeatureTail s := by
  unfold alphaStateToVector alphaFeatureTail
  rw [List.append_assoc]

/-- Claim C6 (amended): both encodings always return exactly their declared
width (10 and 30).  The 10-wide encoding is, in order, the component count
divided by 1000, the four metrics each divided by 100, and the five
auxiliary scalars.  The 30-wide encoding starts with the RAW component
count, the RAW connection count, and the four metrics NOT divided by 100,
followed by the five auxiliary scalars; its remaining 19 entries are the
first-5-components' (x, y, z, efficiency, temperature) and first-5
connection weights in collection order, zero-padded to fill 19 slots when
the feature tail is short and truncated at 19 when it is long. -/
theorem c6_encoding_widths (s : ChipState) :
    (stateToVector10 s).length = 10 ∧
    (alphaEncode s).length = 30 ∧
    stateToVector10 s =
      [(s.components.length : ℚ) / 1000,
        s.performance.powerEfficiency / 100,
        s.performance.areaUtilization / 100,
        s.performance.thermalDissipation / 100,
        s.performance.signalIntegrity / 100,
        s.quantumCoherence, s.processingPower, s.networkEfficiency,
        s.entanglementDegree, s.holographicFidelity] ∧
    (alphaEncode s).take 11 =
      [(s.components.length : ℚ), (s.connections.length : ℚ),
        s.performance.powerEfficiency, s.performance.areaUtilization,
        s.performance.thermalDissipation, s.performance.signalIntegrity,
        s.quantumCoherence, s.processingPower, s.networkEfficiency,
        s.entanglementDegree, s.holographicFidelity] ∧
    (alphaEncode s).drop 11 =
      (alphaFeatureTail s ++
        List.replicate (19 - (alphaFeatureTail s).length) 0).take 19 ∧
    ((alphaFeatureTail s).length ≤ 19 →
      (alphaEncode s).drop 11 =
        alphaFeatureTail s ++
          List.replicate (19 - (alphaFeatureTail s).length) 0) ∧
    (19 ≤ (alphaFeatureTail s).length →
      (alphaEncode s).drop 11 = (alphaFeatureTail s).take 19) := by
  have hsplit := alphaStateToVector_split s
  have hparts := padStateVector_split
    [(s.components.length : ℚ), (s.connections.length : ℚ),
      s.performance.powerEfficiency, s.performance.areaUtilization,
      s.performance.thermalDissipation, s.performance.signalIntegrity,
      s.quantumCoherence, s.processingPower, s.networkEfficiency,
      s.entanglementDegree, s.holographicFidelity]
    (alphaFeatureTail s) rfl
  have htake : (alphaEncode s).take 11 =
      [(s.components.length : ℚ), (s.connections.length : ℚ),
        s.performance.powerEfficiency, s.performance.areaUtilization,
        s.performance.thermalDissipation, s.performance.signalIntegrity,
        s.quantumCoherence, s.processingPower, s.networkEfficiency,
        s.entanglementDegree, s.holographicFidelity] := by
    unfold alphaEncode
    rw [hsplit]
    exact hparts.1
  have hdrop : (alphaEncode s).drop 11 =
      (alphaFeatureTail s ++
        List.replicate (19 - (alphaFeatureTail s).length) 0).take 19 := by
    unfold alphaEncode
    rw [hsplit]
    exact hparts.2
  refine ⟨rfl, padStateVector_length _, rfl, htake, hdrop, ?_, ?_⟩
  · intro hshort
    rw [hdrop]
    exact List.take_of_length_le (by
      rw [List.length_append, List.length_replicate]; omega)
  · intro hlong
    rw [hdrop]
    have h0 : 19 - (alphaFeatureTail s).length = 0 := by omega
    rw [h0, List.replicate_zero, List.append_nil]

/-- Claim C6 witness: the default state (empty feature tail) exercises the
zero-padding branch and the five-component state exercises the truncation
branch of the 30-wide encoding. -/
theorem c6_encoding_widths_witness :
    ((alphaFeatureTail defaultChipState).length ≤ 19 ∧
      (alphaEncode defaultChipState).drop 11 =
        alphaFeatureTail defaultChipState ++
          List.replicate (19 - (alphaFeatureTail defaultChipState).length) 0) ∧
    (19 ≤ (alphaFeatureTail c6WideState).length ∧
      (alphaEncode c6WideState).drop 11 =
        (alphaFeatureTail c6WideState).take 19) :=
  ⟨⟨by decide,
      (c6_encoding_widths defaultChipState).2.2.2.2.2.1 (by decide)⟩,
    ⟨by decide,
      (c6_encoding_widths c6WideState).2.2.2.2.2.2 (by decide)⟩⟩

/-- Claim C7 counterexample: a computation fault while building the input
tensor from the state (the code before the `try` block) propagates out of
`getNextAction` — the call does not return any action, let alone the
fallback `OptimizeConnections`. -/
theorem c7_counterexample :
    getNextActionE (Except.error CompFault.encoding)
        (fun _ => Except.ok [1, 0, 0, 0, 0, 0, 0, 0]) =
      Except.error CompFault.encoding ∧
    (getNextActionE (Except.error CompFault.encoding)
        (fun _ => Except.ok [1, 0, 0, 0, 0, 0, 0, 0])).isOk = false :=
  ⟨rfl, rfl⟩

/-- Claim C7 (amended): a fault in the model forward pass is caught and
replaced by the fixed fallback action `OptimizeConnections`, but a fault
while encoding the state into the input tensor occurs before the
`try`/`catch` and propagates to the caller. -/
theorem c7_fallback (v : List ℚ)
    (predict : List ℚ → Except CompFault (List ℚ)) (e : CompFault) :
    (predict v = Except.error e →
      getNextActionE (Except.ok v) predict =
        Except.ok ChipAction.OptimizeConnections.toIdx) ∧
    getNextActionE (Except.error e) predict = Except.error e := by
  constructor
  · intro h
    simp [getNextActionE, h]
  · rfl

/-- Claim C7 witness: with a forward pass that always faults, the action
returned for a successfully encoded state is the fallback
`OptimizeConnections` (index 2), while an encoding fault propagates. -/
theorem c7_fallback_witness :
    ((fun _ : List ℚ => Except.error (ε := CompFault) (α := List ℚ)
        CompFault.inference) [] = Except.error CompFault.inference) ∧
    getNextActionE (Except.ok [])
        (fun _ => Except.error CompFault.inference) =
      Except.ok ChipAction.OptimizeConnections.toIdx ∧
    getNextActionE (Except.error CompFault.inference)
        (fun _ => Except.error CompFault.inference) =
      Except.error CompFault.inference :=
  ⟨rfl,
    (c7_fallback [] (fun _ => Except.error CompFault.inference)
      CompFault.inference).1 rfl,
    (c7_fallback [] (fun _ => Except.error CompFault.inference)
      CompFault.inference).2⟩

/-! ## Quantum and holographic claims C10, C3, C9 -/

/-- The squared magnitude of a complex value is its radicand. -/
theorem magnitude_sq (c : QC) :
    magnitude c ^ 2 = c.re * c.re + c.im * c.im :=
  Real.sq_sqrt (add_nonneg (mul_self_nonneg _) (mul_self_nonneg _))

/-- A sum of squared magnitudes is nonnegative. -/
theorem sumMagSq_nonneg (w : List QC) : 0 ≤ sumMagSq w := by
  apply List.sum_nonneg
  intro x hx
  obtain ⟨c, -, rfl⟩ := List.mem_map.mp hx
  exact sq_nonneg _

/-- Scaling every wavefunction entry by `k` multiplies the sum of squared
magnitudes by `k²`. -/
theorem sumMagSq_map_scale (w : List QC) (k : ℝ) :
    sumMagSq (w.map fun c => scaleC c k) = k ^ 2 * sumMagSq w := by
  induction w with
  | nil => simp [sumMagSq]
  | cons c w ih =>
    simp only [sumMagSq, List.map_cons, List.sum_cons] at ih ⊢
    rw [ih]
    have hc : magnitude (scaleC c k) ^ 2 = k ^ 2 * magnitude c ^ 2 := by
      rw [magnitude_sq, magnitude_sq]
      simp only [scaleC]
      ring
    rw [hc]
    ring

/-- Claim C10: for every input wavefunction of nonzero norm,
`setWavefunction` stores the input scaled by `1 / sqrt(Σ |wᵢ|²)`, the sum
of squared magnitudes of the stored wavefunction is exactly 1, and the
stored probability field equals that sum, i.e. 1. -/
theorem c10_setWavefunction_unit_norm (q : QuantumProcessor) (w : List QC)
    (h : sumMagSq w ≠ 0) :
    (setWavefunction q w).wavefunction =
      w.map (fun c => scaleC c (1 / Real.sqrt (sumMagSq w))) ∧
    sumMagSq (setWavefunction q w).wavefunction = 1 ∧
    (setWavefunction q w).probability = 1 := by
  have hwf : (setWavefunction q w).wavefunction = normalizeWavefunction w := rfl
  have hprob : (setWavefunction q w).probability =
      sumMagSq (normalizeWavefunction w) := rfl
  have hnorm : sumMagSq (normalizeWavefunction w) = 1 := by
    unfold normalizeWavefunction
    rw [sumMagSq_map_scale]
    have hsq : (1 / Real.sqrt (sumMagSq w)) ^ 2 = 1 / sumMagSq w := by
      rw [div_pow, one_pow, Real.sq_sqrt (sumMagSq_nonneg w)]
    rw [hsq, one_div, inv_mul_cancel₀ h]
  exact ⟨hwf, by rw [hwf]; exact hnorm, by rw [hprob]; exact hnorm⟩

/-- Claim C10 witness: the one-entry wavefunction `[1 + 0i]` has norm 1,
and setting it stores `[1 + 0i]` scaled by `1/√1` with probability 1. -/
theorem c10_setWavefunction_unit_norm_witness :
    sumMagSq [QC.mk 1 0] ≠ 0 ∧
    ((setWavefunction freshQuantum [QC.mk 1 0]).wavefunction =
      [QC.mk 1 0].map (fun c => scaleC c (1 / Real.sqrt (sumMagSq [QC.mk 1 0]))) ∧
    sumMagSq (setWavefunction freshQuantum [QC.mk 1 0]).wavefunction = 1 ∧
    (setWavefunction freshQuantum [QC.mk 1 0]).probability = 1) := by
  have h1 : sumMagSq [QC.mk 1 0] = 1 := by
    simp [sumMagSq, magnitude, Real.sqrt_one]
  exact ⟨by rw [h1]; norm_num,
    c10_setWavefunction_unit_norm freshQuantum [QC.mk 1 0]
      (by rw [h1]; norm_num)⟩

/-- A fresh photonic processor's hologram plate is all zeros, so its
hologram fidelity is 0. -/
theorem calculateHologramFidelity_fresh (w : List ℚ) :
    calculateHologramFidelity (freshPhotonic w) = 0 := by
  unfold calculateHologramFidelity freshPhotonic
  rw [List.map_replicate, List.sum_replicate]
  simp only [abs_zero, smul_zero, zero_div]

/-- Claim C3: the round-trip `loadState(saveState())` on a freshly
constructed processor does not succeed — the saved `metrics.efficiency` is
the fresh hologram fidelity 0, which `updateProcessingMetrics`'s JavaScript
falsy guard rejects, so the call throws the typed 'Invalid metrics object'
load error. -/
theorem c3_roundtrip_errors (w : List ℚ) :
    (loadState (freshHolographic w) (saveState (freshHolographic w))).2 =
      some LoadErr.invalidMetrics := by
  have heff := calculateHologramFidelity_fresh w
  simp only [loadState, saveState, freshHolographic]
  rw [if_pos (Or.inr heff)]

/-- Claim C9 counterexample: an input with all three sections present but
`metrics.efficiency` missing is rejected with the typed load error, yet
parts of it have already been applied — the hologram plate ends up as the
input's `[7]`, not the fresh processor's 1024 zeros. -/
theorem c9_counterexample :
    (loadState (freshHolographic []) c9BadInput).2 =
      some LoadErr.invalidMetrics ∧
    (loadState (freshHolographic []) c9BadInput).1.photonic.hologramPlate =
      [7] ∧
    (freshHolographic []).photonic.hologramPlate ≠ [7] := by
  refine ⟨rfl, rfl, ?_⟩
  intro hcontra
  have hlen := congrArg List.length hcontra
  rw [show (freshHolographic []).photonic.hologramPlate =
    List.replicate 1024 (0 : ℚ) from rfl, List.length_replicate] at hlen
  simp at hlen

/-- Claim C9 (amended): an input missing any top-level section
(quantumState, photonic, metrics) is rejected up front with the typed
'Invalid state object' error and the processor is completely untouched;
but an input whose metrics section lacks `efficiency` or `processingPower`
is rejected only by the later metrics guard, *after* the wavefunction, the
interference pattern and the hologram plate have already been overwritten
with the input's values — the load is not atomic. -/
theorem c9_load_error_behavior (h : HolographicProcessor)
    (st : ProcessorState) (qs : PQuantumState) (ph : PPhotonic)
    (m : PMetrics) :
    ((st.quantumState = none ∨ st.photonic = none ∨ st.metrics = none) →
      loadState h st = (h, some LoadErr.invalidState)) ∧
    (m.efficiency = none ∨ m.processingPower = none →
      (loadState h ⟨some qs, some ph, some m⟩).2 =
        some LoadErr.invalidMetrics ∧
      (loadState h ⟨some qs, some ph, some m⟩).1.quantum.wavefunction =
        normalizeWavefunction qs.wavefunction ∧
      (loadState h ⟨some qs, some ph, some m⟩).1.photonic.interferencePattern =
        ph.interference ∧
      (loadState h ⟨some qs, some ph, some m⟩).1.photonic.hologramPlate =
        ph.hologram) := by
  constructor
  · intro hmiss
    obtain ⟨sq, sp, sm⟩ := st
    cases sq with
    | none => rfl
    | some q0 =>
      cases sp with
      | none => rfl
      | some p0 =>
        cases sm with
        | none => rfl
        | some m0 => simp at hmiss
  · intro hmiss
    obtain ⟨me, mp⟩ := m
    rcases hmiss with he | hp
    · have hme : me = none := he
      subst hme
      cases mp with
      | none => exact ⟨rfl, rfl, rfl, rfl⟩
      | some pp => exact ⟨rfl, rfl, rfl, rfl⟩
    · have hmp : mp = none := hp
      subst hmp
      cases me with
      | none => exact ⟨rfl, rfl, rfl, rfl⟩
      | some eff => exact ⟨rfl, rfl, rfl, rfl⟩

/-- Claim C9 witness: a fully missing input is rejected atomically; the
input with a missing `metrics.efficiency` and the input with a missing
`metrics.processingPower` are both rejected only after the wavefunction
and both photonic arrays have been applied. -/
theorem c9_load_error_behavior_witness :
    (c9EmptyInput.quantumState = none ∨ c9EmptyInput.photonic = none ∨
      c9EmptyInput.metrics = none) ∧
    loadState (freshHolographic []) c9EmptyInput =
      (freshHolographic [], some LoadErr.invalidState) ∧
    (c9BadMetrics.efficiency = none ∨ c9BadMetrics.processingPower = none) ∧
    ((loadState (freshHolographic []) c9BadInput).2 =
        some LoadErr.invalidMetrics ∧
      (loadState (freshHolographic []) c9BadInput).1.quantum.wavefunction =
        normalizeWavefunction c9BadQuantum.wavefunction ∧
      (loadState (freshHolographic []) c9BadInput).1.photonic.interferencePattern =
        c9BadPhotonic.interference ∧
      (loadState (freshHolographic []) c9BadInput).1.photonic.hologramPlate =
        c9BadPhotonic.hologram) ∧
    (c9BadMetrics2.efficiency = none ∨ c9BadMetrics2.processingPower = none) ∧
    ((loadState (freshHolographic []) c9BadInput2).2 =
        some LoadErr.invalidMetrics ∧
      (loadState (freshHolographic []) c9BadInput2).1.quantum.wavefunction =
        normalizeWavefunction c9BadQuantum.wavefunction ∧
      (loadState (freshHolographic []) c9BadInput2).1.photonic.interferencePattern =
        c9BadPhotonic.interference ∧
      (loadState (freshHolographic []) c9BadInput2).1.photonic.hologramPlate =
        c9BadPhotonic.hologram) :=
  ⟨Or.inl rfl,
    (c9_load_error_behavior (freshHolographic []) c9EmptyInput c9BadQuantum
      c9BadPhotonic c9BadMetrics).1 (Or.inl rfl),
    Or.inl rfl,
    (c9_load_error_behavior (freshHolographic []) c9EmptyInput c9BadQuantum
      c9BadPhotonic c9BadMetrics).2 (Or.inl rfl),
    Or.inr rfl,
    (c9_load_error_behavior (freshHolographic []) c9EmptyInput c9BadQuantum
      c9BadPhotonic c9BadMetrics2).2 (Or.inr rfl)⟩
